import Mathlib

/-!
Verification of the jwo-video-client signaling client.

The definitions below are a shallow embedding of `src/video_client.py`
(final revision) and `src/jwo_video_client/__main__.py` (earlier
revision).  External effects (the WebRTC engine calls, the HTTP POST,
display-window creation) are made explicit: the outcome of the single
HTTP exchange is an input to the embedded functions, and engine calls
are recorded in an action trace.  Machine state touched by the client
(the peer connection's descriptions and closed flag, the event loop's
stopped flag, the count of display sinks) is passed explicitly.
-/

namespace JwoVideoClient

/-- JSON values appearing in the signaling exchange: the request and
response bodies only ever hold strings and booleans at the top level. -/
inductive JsonVal where
  | jstr (s : String)
  | jbool (b : Bool)
  deriving DecidableEq, Repr

/-- A JSON object is a finite list of key/value pairs (Python dict with
unique keys). -/
abbrev JsonObj := List (String × JsonVal)

/-- Dictionary lookup, `obj[k]` in Python; `none` models a `KeyError`. -/
def jsonLookup (obj : JsonObj) (k : String) : Option JsonVal :=
  match obj with
  | [] => none
  | (k', v) :: rest => if k' = k then some v else jsonLookup rest k

/-- Session description, `aiortc.RTCSessionDescription`.  Fields are
`JsonVal` because Python is dynamically typed: the client stores into
them whatever the JSON response held. -/
structure RTCSessionDescription where
  sdp : JsonVal
  type : JsonVal
  deriving DecidableEq, Repr

/-- Peer-connection state as observed and mutated by this client. -/
structure RTCPeerConnection where
  localDescription : Option RTCSessionDescription
  remoteDescription : Option RTCSessionDescription
  connectionState : String
  closed : Bool
  deriving DecidableEq, Repr

/-- A fresh `aiortc.RTCPeerConnection()`. -/
def newPeerConnection : RTCPeerConnection :=
  { localDescription := none
    remoteDescription := none
    connectionState := "new"
    closed := false }

/-- Closing a connection, `peer_conn.close()`: sets the closed flag;
closing twice has no further effect. -/
def closeConn (pc : RTCPeerConnection) : RTCPeerConnection :=
  { pc with closed := true }

/-- Engine and I/O calls made by the client, recorded as a trace. -/
inductive Action where
  | createOffer
  | setLocalDescription (d : RTCSessionDescription)
  | httpPost (url : String) (body : JsonObj)
  | setRemoteDescription (d : RTCSessionDescription)
  | close
  deriving DecidableEq, Repr

/-- The POSTs in a trace, as (url, body) pairs. -/
def postsOf : List Action → List (String × JsonObj)
  | [] => []
  | Action.httpPost u b :: rest => (u, b) :: postsOf rest
  | _ :: rest => postsOf rest

/-- Outcome of the single HTTP POST, an input to the embedded exchange:
the connection fails (`aiohttp ClientConnectionError`), or the response
body is not JSON (`resp.json()` raises, not a connection error), or a
JSON object comes back. -/
inductive HttpOutcome where
  | connError
  | badJson
  | ok (resp : JsonObj)
  deriving DecidableEq, Repr

/-- Exceptions the exchange can raise.  `appError` is the distinguished
application error (`AppException`); the others are unclassified Python
exceptions. -/
inductive ExchangeError where
  | appError (msg : String)
  | connectionError
  | keyError (key : String)
  | badJson
  deriving DecidableEq, Repr

/-- Result of running an exchange: the returned value or raised
exception, the final connection state, and the trace of calls made. -/
structure ExchangeResult where
  result : Except ExchangeError JsonVal
  conn : RTCPeerConnection
  trace : List Action
  deriving Repr

/-- The request body built by `send_video_conn_offer`:
`{"sdp": offer.sdp, "type": offer.type, "use_debug_video": use_debug_video}`. -/
def offerBody (offer : RTCSessionDescription) (use_debug_video : Bool) : JsonObj :=
  [("sdp", offer.sdp), ("type", offer.type),
   ("use_debug_video", JsonVal.jbool use_debug_video)]

/-- Shallow embedding of `send_video_conn_offer` (video_client.py,
lines 148-180).  `offer` is the description returned by the engine's
`createOffer()`; `http` is the outcome of the POST.  Control flow of
the source: create offer, set local description, build the body, POST;
a `ClientConnectionError` is re-raised as `AppException` with the URL;
any other failure of the POST or of `resp.json()` propagates as-is;
then `resp["sdp"]`, `resp["type"]` index the response (KeyError if
absent), the answer is applied via `setRemoteDescription`, and
`resp["id"]` is returned (KeyError if absent, after the answer was
applied).  No branch closes the connection. -/
def send_video_conn_offer (pc : RTCPeerConnection) (offer : RTCSessionDescription)
    (server_url : String) (use_debug_video : Bool) (http : HttpOutcome) :
    ExchangeResult :=
  let pc1 := { pc with localDescription := some offer }
  let tr0 := [Action.createOffer, Action.setLocalDescription offer,
              Action.httpPost server_url (offerBody offer use_debug_video)]
  match http with
  | HttpOutcome.connError =>
      { result := Except.error (ExchangeError.appError
          ("Failed to connect to " ++ server_url))
        conn := pc1
        trace := tr0 }
  | HttpOutcome.badJson =>
      { result := Except.error ExchangeError.badJson
        conn := pc1
        trace := tr0 }
  | HttpOutcome.ok resp =>
      match jsonLookup resp "sdp" with
      | none =>
          { result := Except.error (ExchangeError.keyError "sdp")
            conn := pc1
            trace := tr0 }
      | some sdpVal =>
          match jsonLookup resp "type" with
          | none =>
              { result := Except.error (ExchangeError.keyError "type")
                conn := pc1
                trace := tr0 }
          | some typeVal =>
              let answer : RTCSessionDescription := ⟨sdpVal, typeVal⟩
              let pc2 := { pc1 with remoteDescription := some answer }
              let tr1 := tr0 ++ [Action.setRemoteDescription answer]
              match jsonLookup resp "id" with
              | none =>
                  { result := Except.error (ExchangeError.keyError "id")
                    conn := pc2
                    trace := tr1 }
              | some idVal =>
                  { result := Except.ok idVal
                    conn := pc2
                    trace := tr1 }

/-- Result of the earlier revision's exchange, which returns `None`. -/
structure RtcExchangeResult where
  result : Except ExchangeError Unit
  conn : RTCPeerConnection
  trace : List Action
  deriving Repr

/-- Shallow embedding of `send_rtc_conn_offer`
(jwo_video_client/__main__.py, lines 46-65), the earlier revision.
Its `try` block covers the POST, `resp.json()` and the indexing
`resp["sdp"]`, `resp["type"]`; on any exception it closes the
connection and re-raises the original exception unchanged.  On success
the source calls `connection.setRemoteDescription(answer)` without
awaiting the coroutine, so the remote description is never actually
applied; the embedding therefore leaves `remoteDescription` unchanged
and records no `setRemoteDescription` engine call. -/
def send_rtc_conn_offer (pc : RTCPeerConnection) (offer : RTCSessionDescription)
    (server_url : String) (http : HttpOutcome) : RtcExchangeResult :=
  let pc1 := { pc with localDescription := some offer }
  let body : JsonObj := [("sdp", offer.sdp), ("type", offer.type)]
  let tr0 := [Action.createOffer, Action.setLocalDescription offer,
              Action.httpPost server_url body]
  match http with
  | HttpOutcome.connError =>
      { result := Except.error ExchangeError.connectionError
        conn := closeConn pc1
        trace := tr0 ++ [Action.close] }
  | HttpOutcome.badJson =>
      { result := Except.error ExchangeError.badJson
        conn := closeConn pc1
        trace := tr0 ++ [Action.close] }
  | HttpOutcome.ok resp =>
      match jsonLookup resp "sdp" with
      | none =>
          { result := Except.error (ExchangeError.keyError "sdp")
            conn := closeConn pc1
            trace := tr0 ++ [Action.close] }
      | some _ =>
          match jsonLookup resp "type" with
          | none =>
              { result := Except.error (ExchangeError.keyError "type")
                conn := closeConn pc1
                trace := tr0 ++ [Action.close] }
          | some _ =>
              { result := Except.ok ()
                conn := pc1
                trace := tr0 }

/-- Media track handle, `aiortc.MediaStreamTrack`: only its `kind` is
inspected by this client. -/
structure MediaStreamTrack where
  kind : String
  deriving DecidableEq, Repr

/-- Display-side state touched by the inbound-track observer:
`displaySinks` counts display sinks created (a `VideoDisplayTrack`
wrapping plus `cv2.namedWindow` call), `blackholeTracks` counts tracks
added to the module-level `MediaBlackhole`. -/
structure DisplayState where
  displaySinks : Nat
  blackholeTracks : Nat
  deriving DecidableEq, Repr

/-- Shallow embedding of the `on_track` handler registered in
`create_video_conn` (video_client.py, lines 132-138): non-video tracks
are ignored; for a video track a `VideoDisplayTrack` display sink is
created (with its `Debug` window) and added to the blackhole.  The
handler closure does not read `accept_debug_video`. -/
def on_track (track : MediaStreamTrack) (st : DisplayState) : DisplayState :=
  if track.kind ≠ "video" then st
  else { displaySinks := st.displaySinks + 1
         blackholeTracks := st.blackholeTracks + 1 }

/-- Transceiver direction: `addTransceiver` default (send + receive)
versus the explicit `direction="sendonly"`. -/
inductive TransceiverDirection where
  | sendrecv
  | sendonly
  deriving DecidableEq, Repr

/-- Event-loop state: whether `event_loop.stop()` has been called. -/
structure LoopState where
  stopped : Bool
  deriving DecidableEq, Repr

/-- Result of firing the connectivity-state observer. -/
structure StateChangeResult where
  conn : RTCPeerConnection
  loop : LoopState
  logs : List String
  deriving DecidableEq, Repr

/-- Shallow embedding of the `on_conn_state_change` handler registered
in `create_video_conn` (video_client.py, lines 126-131): it logs the
current connection state, and closes the connection exactly when the
state is `failed`.  It never touches the event loop. -/
def on_conn_state_change (pc : RTCPeerConnection) (loop : LoopState) :
    StateChangeResult :=
  let logs := ["Connection state is " ++ pc.connectionState]
  if pc.connectionState = "failed" then
    { conn := closeConn pc, loop := loop, logs := logs }
  else
    { conn := pc, loop := loop, logs := logs }

/-- A connection as configured by `create_video_conn`: the underlying
peer connection, the direction of the single transceiver carrying the
outbound track, and the registered inbound-track handler. -/
structure VideoConn where
  conn : RTCPeerConnection
  track : MediaStreamTrack
  direction : TransceiverDirection
  onTrackHandler : MediaStreamTrack → DisplayState → DisplayState

/-- Shallow embedding of `create_video_conn` (video_client.py, lines
100-145): creates a fresh peer connection, registers
`on_conn_state_change` and `on_track` (the latter unconditionally —
the flag is not consulted by the handler), and attaches the outbound
track bidirectionally when `accept_debug_video` is true, send-only
otherwise. -/
def create_video_conn (video_track : MediaStreamTrack)
    (accept_debug_video : Bool) : VideoConn :=
  { conn := newPeerConnection
    track := video_track
    direction :=
      if accept_debug_video then TransceiverDirection.sendrecv
      else TransceiverDirection.sendonly
    onTrackHandler := on_track }

/-- An opened `aiortc.contrib.media.MediaPlayer`: the target (device
node or file path), the optional container format, and the options
dict passed to it. -/
structure MediaPlayer where
  target : String
  format : Option String
  video_size : String
  framerate : String
  deriving DecidableEq, Repr

/-- Shallow embedding of `create_video_track_from_capture_dev`
(video_client.py, lines 53-74): opens `/dev/video<dev_idx>` with
format `v4l2` and subscribes a relay track to the player's video. -/
def create_video_track_from_capture_dev (dev_idx : Int) (size : String)
    (frame_rate : Int) : MediaPlayer × MediaStreamTrack :=
  ({ target := "/dev/video" ++ toString dev_idx
     format := some "v4l2"
     video_size := size
     framerate := toString frame_rate },
   { kind := "video" })

/-- Shallow embedding of `create_video_track_from_file`
(video_client.py, lines 77-97): opens the file path with no explicit
format and subscribes a relay track to the player's video. -/
def create_video_track_from_file (file_path : String) (size : String)
    (frame_rate : Int) : MediaPlayer × MediaStreamTrack :=
  ({ target := file_path
     format := none
     video_size := size
     framerate := toString frame_rate },
   { kind := "video" })

/-- Parsed CLI arguments: the `--debug` (`-d`) and `--file` (`-f`)
flags. -/
structure Args where
  debug : Bool
  file : Option String
  deriving DecidableEq, Repr

/-- Configuration read from config.toml: the `video` table and the
`video_server.url` entry. -/
structure Config where
  dev_idx : Int
  image_size : String
  frame_rate : Int
  video_server_url : String
  deriving DecidableEq, Repr

/-- Result of the `main` coroutine: the media players opened, the
configured connection, the exchange outcome, and whether
`media_blackhole.start()` was reached. -/
structure MainResult where
  playersOpened : List MediaPlayer
  vconn : VideoConn
  exchange : ExchangeResult
  blackholeStarted : Bool

/-- Shallow embedding of the `main` coroutine (video_client.py, lines
183-203): if `args.file` is set, the file source is opened, else the
capture device; the connection is created with
`accept_debug_video=True` (a literal, independent of `args.debug`);
`send_video_conn_offer` is called once with the server URL from the
config and `use_debug_video := args.debug`; if the exchange raises,
the coroutine aborts before `media_blackhole.start()`. -/
def main (cfg : Config) (args : Args) (offer : RTCSessionDescription)
    (http : HttpOutcome) : MainResult :=
  let opened :=
    match args.file with
    | some path => create_video_track_from_file path cfg.image_size cfg.frame_rate
    | none =>
        create_video_track_from_capture_dev cfg.dev_idx cfg.image_size
          cfg.frame_rate
  let vconn := create_video_conn opened.2 true
  let exch :=
    send_video_conn_offer vconn.conn offer cfg.video_server_url args.debug http
  { playersOpened := [opened.1]
    vconn := vconn
    exchange := exch
    blackholeStarted := exch.result.isOk }

/-- Exceptions as seen by the loop's exception handler: either the
distinguished `AppException` or any other exception. -/
inductive RaisedException where
  | appException (msg : String)
  | otherException (msg : String)
  deriving DecidableEq, Repr

/-- How the handler logged the exception: `logger.error` (message
only, no stack trace) or `logger.exception` (full diagnostic
detail). -/
inductive LoggedAs where
  | errorLevel (msg : String)
  | exceptionLevel (msg : String)
  deriving DecidableEq, Repr

/-- Shallow embedding of `exception_handler` (video_client.py, lines
206-215): an `AppException` instance is logged with `logger.error`,
anything else with `logger.exception`; in both cases
`event_loop.stop()` is called. -/
def exception_handler (_loop : LoopState) (exc : RaisedException) :
    LoggedAs × LoopState :=
  match exc with
  | RaisedException.appException m => (LoggedAs.errorLevel m, { stopped := true })
  | RaisedException.otherException m =>
      (LoggedAs.exceptionLevel m, { stopped := true })

/-- Mapping from the exchange's raised errors to what the exception
handler sees: only `AppException` is the distinguished application
error; a raw connection error, a `KeyError` and a JSON decoding
failure are ordinary exceptions. -/
def raisedOf : ExchangeError → RaisedException
  | ExchangeError.appError m => RaisedException.appException m
  | ExchangeError.connectionError =>
      RaisedException.otherException "ClientConnectionError"
  | ExchangeError.keyError k => RaisedException.otherException ("KeyError: " ++ k)
  | ExchangeError.badJson => RaisedException.otherException "ContentTypeError"

/-- Count of `createOffer` calls in a trace. -/
def countCreateOffer (tr : List Action) : Nat :=
  tr.countP fun a => match a with | Action.createOffer => true | _ => false

/-- Count of `setLocalDescription` calls in a trace. -/
def countSetLocal (tr : List Action) : Nat :=
  tr.countP fun a =>
    match a with | Action.setLocalDescription _ => true | _ => false

/-- Count of `setRemoteDescription` calls in a trace. -/
def countSetRemote (tr : List Action) : Nat :=
  tr.countP fun a =>
    match a with | Action.setRemoteDescription _ => true | _ => false

/-! Helper lemmas shared by several claims. -/

/-- Every run of `send_video_conn_offer` performs exactly one HTTP
POST, to the given URL, with the three-field offer body; this holds
on every outcome of the POST, so in particular no retry ever
happens. -/
theorem send_video_conn_offer_posts (pc : RTCPeerConnection)
    (offer : RTCSessionDescription) (url : String) (b : Bool)
    (http : HttpOutcome) :
    postsOf (send_video_conn_offer pc offer url b http).trace =
      [(url, offerBody offer b)] := by
  cases http with
  | connError => rfl
  | badJson => rfl
  | ok resp =>
    simp only [send_video_conn_offer]
    cases jsonLookup resp "sdp" with
    | none => rfl
    | some v =>
      cases jsonLookup resp "type" with
      | none => rfl
      | some w =>
        cases jsonLookup resp "id" with
        | none => rfl
        | some i => rfl

/-- Engine-call counts of one run of `send_video_conn_offer`: exactly
one `createOffer`, one `setLocalDescription`, at most one
`setRemoteDescription`, and exactly one of the latter when the call
returns successfully. -/
theorem send_video_conn_offer_counts (pc : RTCPeerConnection)
    (offer : RTCSessionDescription) (url : String) (b : Bool)
    (http : HttpOutcome) :
    countCreateOffer (send_video_conn_offer pc offer url b http).trace = 1 ∧
    countSetLocal (send_video_conn_offer pc offer url b http).trace = 1 ∧
    countSetRemote (send_video_conn_offer pc offer url b http).trace ≤ 1 ∧
    ((send_video_conn_offer pc offer url b http).result.isOk = true →
      countSetRemote (send_video_conn_offer pc offer url b http).trace = 1) := by
  cases http with
  | connError =>
      exact ⟨rfl, rfl, Nat.zero_le 1,
        fun h => by simp [send_video_conn_offer, Except.isOk, Except.toBool] at h⟩
  | badJson =>
      exact ⟨rfl, rfl, Nat.zero_le 1,
        fun h => by simp [send_video_conn_offer, Except.isOk, Except.toBool] at h⟩
  | ok resp =>
    simp only [send_video_conn_offer]
    cases jsonLookup resp "sdp" with
    | none =>
        exact ⟨rfl, rfl, Nat.zero_le 1,
          fun h => by simp [Except.isOk, Except.toBool] at h⟩
    | some v =>
      cases jsonLookup resp "type" with
      | none =>
          exact ⟨rfl, rfl, Nat.zero_le 1,
            fun h => by simp [Except.isOk, Except.toBool] at h⟩
      | some w =>
        cases jsonLookup resp "id" with
        | none => exact ⟨rfl, rfl, Nat.le_refl 1, fun _ => rfl⟩
        | some i => exact ⟨rfl, rfl, Nat.le_refl 1, fun _ => rfl⟩

/-! Claims. -/

/-- Claim C1, counterexample.  With the connection initially open, a
connection error on the POST makes `send_video_conn_offer` raise the
application error, but the connection is NOT closed before the error
propagates: its closed flag is still `false`, contradicting the
claimed close-as-side-effect. -/
theorem C1_counterexample :
    (send_video_conn_offer newPeerConnection
        ⟨JsonVal.jstr "v=0", JsonVal.jstr "offer"⟩
        "http://localhost:8080/offer" false HttpOutcome.connError).conn.closed
      = false := rfl

/-- Claim C1, amended.  When the POST fails with a connection error,
`send_video_conn_offer` fails with the distinguished application
error carrying the attempted URL, performs exactly one POST (no
retry), but leaves the connection's closed flag unchanged — it does
not close the connection.  The close-on-failure behavior exists only
in the earlier revision's `send_rtc_conn_offer`, which does close the
connection but propagates the raw connection error rather than the
distinguished application error. -/
theorem C1_amended (pc : RTCPeerConnection) (offer : RTCSessionDescription)
    (url : String) (b : Bool) :
    (send_video_conn_offer pc offer url b HttpOutcome.connError).result =
      Except.error (ExchangeError.appError ("Failed to connect to " ++ url)) ∧
    postsOf (send_video_conn_offer pc offer url b HttpOutcome.connError).trace =
      [(url, offerBody offer b)] ∧
    (send_video_conn_offer pc offer url b HttpOutcome.connError).conn.closed =
      pc.closed ∧
    (send_rtc_conn_offer pc offer url HttpOutcome.connError).conn.closed = true ∧
    (send_rtc_conn_offer pc offer url HttpOutcome.connError).result =
      Except.error ExchangeError.connectionError :=
  ⟨rfl, send_video_conn_offer_posts pc offer url b HttpOutcome.connError,
   rfl, rfl, rfl⟩

/-- Claim C2, counterexample.  On a connection created with the debug
flag false, delivering an inbound video track to the registered
inbound-track handler creates a display sink (the sink count goes
from 0 to 1): the handler is not a no-op with respect to display-sink
creation. -/
theorem C2_counterexample :
    ((create_video_conn ⟨"video"⟩ false).onTrackHandler ⟨"video"⟩
        ⟨0, 0⟩).displaySinks = 1 := by
  decide

/-- Claim C2, amended.  With `accept_debug_video` false the
transceiver is configured send-only, so the connection advertises no
inbound video capability; but the inbound-track handler itself is not
guarded by the flag: it ignores non-video tracks, and creates a
display sink for any video track the engine nonetheless delivers. -/
theorem C2_amended (t track : MediaStreamTrack) (st : DisplayState) :
    (create_video_conn t false).direction = TransceiverDirection.sendonly ∧
    (track.kind ≠ "video" →
      (create_video_conn t false).onTrackHandler track st = st) ∧
    (track.kind = "video" →
      ((create_video_conn t false).onTrackHandler track st).displaySinks =
        st.displaySinks + 1) := by
  refine ⟨rfl, fun h => ?_, fun h => ?_⟩
  · simp [create_video_conn, on_track, h]
  · simp [create_video_conn, on_track, h]

/-- Claim C2, witness for the amended statement at concrete inputs. -/
theorem C2_witness :
    (create_video_conn ⟨"video"⟩ false).direction =
      TransceiverDirection.sendonly ∧
    (create_video_conn ⟨"video"⟩ false).onTrackHandler ⟨"audio"⟩ ⟨0, 0⟩ =
      ⟨0, 0⟩ ∧
    ((create_video_conn ⟨"video"⟩ false).onTrackHandler ⟨"video"⟩
        ⟨0, 0⟩).displaySinks = 0 + 1 :=
  ⟨(C2_amended ⟨"video"⟩ ⟨"audio"⟩ ⟨0, 0⟩).1,
   (C2_amended ⟨"video"⟩ ⟨"audio"⟩ ⟨0, 0⟩).2.1 (by decide),
   (C2_amended ⟨"video"⟩ ⟨"video"⟩ ⟨0, 0⟩).2.2 rfl⟩

/-- Claim C3.  For any offer whose type field is the string `offer`,
the POSTs performed by `send_video_conn_offer` are exactly one, to
the given URL, whose JSON body is exactly the three-field object
with the offer's sdp, the type `offer`, and the requested debug flag
— no other fields. -/
theorem C3_request_body_exact (pc : RTCPeerConnection)
    (offer : RTCSessionDescription) (url : String) (b : Bool)
    (http : HttpOutcome) (h : offer.type = JsonVal.jstr "offer") :
    postsOf (send_video_conn_offer pc offer url b http).trace =
      [(url, [("sdp", offer.sdp), ("type", JsonVal.jstr "offer"),
              ("use_debug_video", JsonVal.jbool b)])] := by
  rw [send_video_conn_offer_posts pc offer url b http, offerBody, h]

/-- Claim C3, witness at concrete inputs. -/
theorem C3_witness :
    postsOf (send_video_conn_offer newPeerConnection
        ⟨JsonVal.jstr "v=0", JsonVal.jstr "offer"⟩
        "http://localhost:8080/offer" false
        (HttpOutcome.ok [("sdp", JsonVal.jstr "a"),
          ("type", JsonVal.jstr "answer"), ("id", JsonVal.jstr "x")])).trace =
      [("http://localhost:8080/offer",
        [("sdp", JsonVal.jstr "v=0"), ("type", JsonVal.jstr "offer"),
         ("use_debug_video", JsonVal.jbool false)])] :=
  C3_request_body_exact newPeerConnection
    ⟨JsonVal.jstr "v=0", JsonVal.jstr "offer"⟩ "http://localhost:8080/offer"
    false _ rfl

/-- Claim C4.  If the server's JSON response maps `sdp` to the string
`a`, `type` to the string `answer` and `id` to the string `i`, then
`send_video_conn_offer` applies a remote session description with
exactly that sdp and type `answer`, and returns `i`. -/
theorem C4_answer_applied (pc : RTCPeerConnection)
    (offer : RTCSessionDescription) (url : String) (b : Bool)
    (resp : JsonObj) (a i : String)
    (hs : jsonLookup resp "sdp" = some (JsonVal.jstr a))
    (ht : jsonLookup resp "type" = some (JsonVal.jstr "answer"))
    (hi : jsonLookup resp "id" = some (JsonVal.jstr i)) :
    (send_video_conn_offer pc offer url b
        (HttpOutcome.ok resp)).conn.remoteDescription =
      some ⟨JsonVal.jstr a, JsonVal.jstr "answer"⟩ ∧
    (send_video_conn_offer pc offer url b (HttpOutcome.ok resp)).result =
      Except.ok (JsonVal.jstr i) := by
  simp [send_video_conn_offer, hs, ht, hi]

/-- Claim C4, witness at the spec's concrete response
`{"sdp": "A", "type": "answer", "id": "xyz"}`. -/
theorem C4_witness :
    (send_video_conn_offer newPeerConnection
        ⟨JsonVal.jstr "v=0", JsonVal.jstr "offer"⟩ "http://localhost:8080/offer"
        false (HttpOutcome.ok
          [("sdp", JsonVal.jstr "A"), ("type", JsonVal.jstr "answer"),
           ("id", JsonVal.jstr "xyz")])).conn.remoteDescription =
      some ⟨JsonVal.jstr "A", JsonVal.jstr "answer"⟩ ∧
    (send_video_conn_offer newPeerConnection
        ⟨JsonVal.jstr "v=0", JsonVal.jstr "offer"⟩ "http://localhost:8080/offer"
        false (HttpOutcome.ok
          [("sdp", JsonVal.jstr "A"), ("type", JsonVal.jstr "answer"),
           ("id", JsonVal.jstr "xyz")])).result =
      Except.ok (JsonVal.jstr "xyz") :=
  C4_answer_applied newPeerConnection
    ⟨JsonVal.jstr "v=0", JsonVal.jstr "offer"⟩ "http://localhost:8080/offer"
    false _ "A" "xyz" (by decide) (by decide) (by decide)

/-- Claim C5.  The `main` orchestration always creates the connection
with `accept_debug_video=True`, independent of every CLI argument (in
particular of `args.debug`, which only feeds the request body): the
transceiver is always bidirectional, and the registered inbound-track
handler creates a display sink for any inbound video track. -/
theorem C5_always_bidirectional (cfg : Config) (args : Args)
    (offer : RTCSessionDescription) (http : HttpOutcome)
    (track : MediaStreamTrack) (st : DisplayState) :
    (main cfg args offer http).vconn.direction =
      TransceiverDirection.sendrecv ∧
    (track.kind = "video" →
      ((main cfg args offer http).vconn.onTrackHandler track st).displaySinks =
        st.displaySinks + 1) := by
  refine ⟨rfl, fun h => ?_⟩
  show (on_track track st).displaySinks = st.displaySinks + 1
  simp [on_track, h]

/-- Claim C5, witness at concrete inputs with the debug flag off. -/
theorem C5_witness :
    (main ⟨0, "640x480", 30, "http://localhost:8080/offer"⟩ ⟨false, none⟩
        ⟨JsonVal.jstr "v=0", JsonVal.jstr "offer"⟩
        HttpOutcome.connError).vconn.direction =
      TransceiverDirection.sendrecv ∧
    ((main ⟨0, "640x480", 30, "http://localhost:8080/offer"⟩ ⟨false, none⟩
        ⟨JsonVal.jstr "v=0", JsonVal.jstr "offer"⟩
        HttpOutcome.connError).vconn.onTrackHandler ⟨"video"⟩
      ⟨0, 0⟩).displaySinks = 0 + 1 :=
  ⟨(C5_always_bidirectional _ _ _ _ ⟨"video"⟩ ⟨0, 0⟩).1,
   (C5_always_bidirectional ⟨0, "640x480", 30, "http://localhost:8080/offer"⟩
     ⟨false, none⟩ ⟨JsonVal.jstr "v=0", JsonVal.jstr "offer"⟩
     HttpOutcome.connError ⟨"video"⟩ ⟨0, 0⟩).2 rfl⟩

/-- Claim C6.  The loop's exception handler logs the distinguished
application error at error level (message only), logs any other
exception with full diagnostic detail, and stops the event loop in
both cases. -/
theorem C6_exception_handling (loop : LoopState) (e : RaisedException) :
    (∀ m, e = RaisedException.appException m →
      exception_handler loop e = (LoggedAs.errorLevel m, { stopped := true })) ∧
    (∀ m, e = RaisedException.otherException m →
      exception_handler loop e =
        (LoggedAs.exceptionLevel m, { stopped := true })) ∧
    (exception_handler loop e).2.stopped = true := by
  refine ⟨?_, ?_, ?_⟩
  · rintro m rfl; rfl
  · rintro m rfl; rfl
  · cases e <;> rfl

/-- Claim C6, witness at a concrete application error and a concrete
unclassified exception. -/
theorem C6_witness :
    exception_handler ⟨false⟩
        (RaisedException.appException "Failed to connect to u") =
      (LoggedAs.errorLevel "Failed to connect to u", ⟨true⟩) ∧
    exception_handler ⟨false⟩ (RaisedException.otherException "KeyError: id") =
      (LoggedAs.exceptionLevel "KeyError: id", ⟨true⟩) :=
  ⟨(C6_exception_handling ⟨false⟩ _).1 _ rfl,
   (C6_exception_handling ⟨false⟩ _).2.1 _ rfl⟩

/-- Claim C7.  The connectivity-state observer closes the connection
exactly when the state is `failed`, leaves the connection untouched on
every other state, logs the state in all cases, and never changes the
event loop (in particular it never stops it). -/
theorem C7_state_observer (pc : RTCPeerConnection) (loop : LoopState) :
    (pc.connectionState = "failed" →
      (on_conn_state_change pc loop).conn = closeConn pc) ∧
    (pc.connectionState ≠ "failed" →
      (on_conn_state_change pc loop).conn = pc) ∧
    (on_conn_state_change pc loop).loop = loop ∧
    (on_conn_state_change pc loop).logs =
      ["Connection state is " ++ pc.connectionState] := by
  refine ⟨fun h => ?_, fun h => ?_, ?_, ?_⟩
  · simp [on_conn_state_change, h]
  · simp [on_conn_state_change, h]
  · unfold on_conn_state_change
    by_cases h : pc.connectionState = "failed" <;> simp [h]
  · unfold on_conn_state_change
    by_cases h : pc.connectionState = "failed" <;> simp [h]

/-- Claim C7, witness: a `failed` connection is closed and a
`connected` one is left as-is, the loop untouched in both runs. -/
theorem C7_witness :
    (on_conn_state_change ⟨none, none, "failed", false⟩ ⟨false⟩).conn =
      closeConn ⟨none, none, "failed", false⟩ ∧
    (on_conn_state_change ⟨none, none, "connected", false⟩ ⟨false⟩).conn =
      ⟨none, none, "connected", false⟩ ∧
    (on_conn_state_change ⟨none, none, "failed", false⟩ ⟨false⟩).loop =
      ⟨false⟩ :=
  ⟨(C7_state_observer ⟨none, none, "failed", false⟩ ⟨false⟩).1 rfl,
   (C7_state_observer ⟨none, none, "connected", false⟩ ⟨false⟩).2.1 (by decide),
   (C7_state_observer ⟨none, none, "failed", false⟩ ⟨false⟩).2.2.1⟩

/-- Claim C8.  Source selection in `main` is mutually exclusive: when
a file path is given, the only media player opened is the file player
(no v4l2 capture device is opened); the capture device is opened
exactly when the file path is absent. -/
theorem C8_source_selection (cfg : Config) (args : Args)
    (offer : RTCSessionDescription) (http : HttpOutcome) :
    (∀ p, args.file = some p →
      (main cfg args offer http).playersOpened =
        [{ target := p, format := none, video_size := cfg.image_size,
           framerate := toString cfg.frame_rate }]) ∧
    (args.file = none →
      (main cfg args offer http).playersOpened =
        [{ target := "/dev/video" ++ toString cfg.dev_idx,
           format := some "v4l2", video_size := cfg.image_size,
           framerate := toString cfg.frame_rate }]) := by
  constructor
  · intro p hp
    simp [main, hp, create_video_track_from_file]
  · intro hn
    simp [main, hn, create_video_track_from_capture_dev]

/-- Claim C8, witness: with both a file path and a capture-device
index configured, only the file player is opened; without a file path
the v4l2 device is opened. -/
theorem C8_witness :
    (main ⟨0, "640x480", 30, "u"⟩ ⟨false, some "clip.mp4"⟩
        ⟨JsonVal.jstr "v=0", JsonVal.jstr "offer"⟩
        HttpOutcome.connError).playersOpened =
      [{ target := "clip.mp4", format := none, video_size := "640x480",
         framerate := toString (30 : Int) }] ∧
    (main ⟨0, "640x480", 30, "u"⟩ ⟨false, none⟩
        ⟨JsonVal.jstr "v=0", JsonVal.jstr "offer"⟩
        HttpOutcome.connError).playersOpened =
      [{ target := "/dev/video" ++ toString (0 : Int), format := some "v4l2",
         video_size := "640x480", framerate := toString (30 : Int) }] :=
  ⟨(C8_source_selection ⟨0, "640x480", 30, "u"⟩ ⟨false, some "clip.mp4"⟩
      ⟨JsonVal.jstr "v=0", JsonVal.jstr "offer"⟩ HttpOutcome.connError).1
      "clip.mp4" rfl,
   (C8_source_selection ⟨0, "640x480", 30, "u"⟩ ⟨false, none⟩
      ⟨JsonVal.jstr "v=0", JsonVal.jstr "offer"⟩ HttpOutcome.connError).2 rfl⟩

/-- Claim C9.  One run of `main` makes exactly one `createOffer` call,
one `setLocalDescription` call, at most one `setRemoteDescription`
call (exactly one when the exchange succeeds), and exactly one HTTP
POST: no renegotiation, no restart, no second session. -/
theorem C9_single_negotiation (cfg : Config) (args : Args)
    (offer : RTCSessionDescription) (http : HttpOutcome) :
    countCreateOffer (main cfg args offer http).exchange.trace = 1 ∧
    countSetLocal (main cfg args offer http).exchange.trace = 1 ∧
    countSetRemote (main cfg args offer http).exchange.trace ≤ 1 ∧
    ((main cfg args offer http).exchange.result.isOk = true →
      countSetRemote (main cfg args offer http).exchange.trace = 1) ∧
    postsOf (main cfg args offer http).exchange.trace =
      [(cfg.video_server_url, offerBody offer args.debug)] := by
  refine ⟨(send_video_conn_offer_counts _ _ _ _ _).1,
    (send_video_conn_offer_counts _ _ _ _ _).2.1,
    (send_video_conn_offer_counts _ _ _ _ _).2.2.1,
    (send_video_conn_offer_counts _ _ _ _ _).2.2.2,
    send_video_conn_offer_posts _ _ _ _ _⟩

/-- Claim C9, witness: a concretely successful run applies exactly
one remote description. -/
theorem C9_witness :
    countSetRemote (main ⟨0, "640x480", 30, "u"⟩ ⟨false, none⟩
        ⟨JsonVal.jstr "v=0", JsonVal.jstr "offer"⟩
        (HttpOutcome.ok [("sdp", JsonVal.jstr "A"),
          ("type", JsonVal.jstr "answer"),
          ("id", JsonVal.jstr "xyz")])).exchange.trace = 1 :=
  (C9_single_negotiation ⟨0, "640x480", 30, "u"⟩ ⟨false, none⟩
    ⟨JsonVal.jstr "v=0", JsonVal.jstr "offer"⟩
    (HttpOutcome.ok [("sdp", JsonVal.jstr "A"),
      ("type", JsonVal.jstr "answer"),
      ("id", JsonVal.jstr "xyz")])).2.2.2.1 (by decide)

/-- Claim C10.  In `send_video_conn_offer`, only a connection error
from the POST yields the distinguished application error; a non-JSON
response body or a response missing `sdp` or `type` propagates as an
unclassified exception without closing the connection and without a
remote description having been applied; and a response missing only
`id` fails with the unclassified `KeyError` after the remote
description was already applied, again without closing the
connection. -/
theorem C10_error_classification (pc : RTCPeerConnection)
    (offer : RTCSessionDescription) (url : String) (b : Bool) :
    (∀ http m,
      (send_video_conn_offer pc offer url b http).result =
        Except.error (ExchangeError.appError m) →
      http = HttpOutcome.connError) ∧
    ((send_video_conn_offer pc offer url b HttpOutcome.badJson).result =
        Except.error ExchangeError.badJson ∧
      (send_video_conn_offer pc offer url b HttpOutcome.badJson).conn.closed =
        pc.closed ∧
      (send_video_conn_offer pc offer url b
          HttpOutcome.badJson).conn.remoteDescription =
        pc.remoteDescription) ∧
    (∀ resp, jsonLookup resp "sdp" = none →
      (send_video_conn_offer pc offer url b (HttpOutcome.ok resp)).result =
          Except.error (ExchangeError.keyError "sdp") ∧
        (send_video_conn_offer pc offer url b (HttpOutcome.ok resp)).conn.closed =
          pc.closed ∧
        (send_video_conn_offer pc offer url b
            (HttpOutcome.ok resp)).conn.remoteDescription =
          pc.remoteDescription) ∧
    (∀ resp v, jsonLookup resp "sdp" = some v →
      jsonLookup resp "type" = none →
      (send_video_conn_offer pc offer url b (HttpOutcome.ok resp)).result =
          Except.error (ExchangeError.keyError "type") ∧
        (send_video_conn_offer pc offer url b (HttpOutcome.ok resp)).conn.closed =
          pc.closed ∧
        (send_video_conn_offer pc offer url b
            (HttpOutcome.ok resp)).conn.remoteDescription =
          pc.remoteDescription) ∧
    (∀ resp v w, jsonLookup resp "sdp" = some v →
      jsonLookup resp "type" = some w →
      jsonLookup resp "id" = none →
      (send_video_conn_offer pc offer url b (HttpOutcome.ok resp)).result =
          Except.error (ExchangeError.keyError "id") ∧
        (send_video_conn_offer pc offer url b (HttpOutcome.ok resp)).conn.closed =
          pc.closed ∧
        (send_video_conn_offer pc offer url b
            (HttpOutcome.ok resp)).conn.remoteDescription = some ⟨v, w⟩) := by
  refine ⟨?_, ⟨rfl, rfl, rfl⟩, ?_, ?_, ?_⟩
  · intro http m h
    cases http with
    | connError => rfl
    | badJson => simp [send_video_conn_offer] at h
    | ok resp =>
      rcases hs : jsonLookup resp "sdp" with _ | v
      · simp [send_video_conn_offer, hs] at h
      · rcases ht : jsonLookup resp "type" with _ | w
        · simp [send_video_conn_offer, hs, ht] at h
        · rcases hi : jsonLookup resp "id" with _ | i
          · simp [send_video_conn_offer, hs, ht, hi] at h
          · simp [send_video_conn_offer, hs, ht, hi] at h
  · intro resp hs
    simp [send_video_conn_offer, hs]
  · intro resp v hs ht
    simp [send_video_conn_offer, hs, ht]
  · intro resp v w hs ht hi
    simp [send_video_conn_offer, hs, ht, hi]

/-- Claim C10, witness: the classification at concrete responses — a
connection error is the application error; an empty response object,
a response with only `sdp`, and a response with `sdp` and `type` but
no `id` each fail unclassified, with the remote description applied
exactly in the last case. -/
theorem C10_witness :
    HttpOutcome.connError = HttpOutcome.connError ∧
    (send_video_conn_offer newPeerConnection
        ⟨JsonVal.jstr "v=0", JsonVal.jstr "offer"⟩ "u" false
        (HttpOutcome.ok [])).result =
      Except.error (ExchangeError.keyError "sdp") ∧
    (send_video_conn_offer newPeerConnection
        ⟨JsonVal.jstr "v=0", JsonVal.jstr "offer"⟩ "u" false
        (HttpOutcome.ok [("sdp", JsonVal.jstr "a")])).result =
      Except.error (ExchangeError.keyError "type") ∧
    (send_video_conn_offer newPeerConnection
        ⟨JsonVal.jstr "v=0", JsonVal.jstr "offer"⟩ "u" false
        (HttpOutcome.ok [("sdp", JsonVal.jstr "a"),
          ("type", JsonVal.jstr "answer")])).conn.remoteDescription =
      some ⟨JsonVal.jstr "a", JsonVal.jstr "answer"⟩ :=
  ⟨(C10_error_classification newPeerConnection
      ⟨JsonVal.jstr "v=0", JsonVal.jstr "offer"⟩ "u" false).1
      HttpOutcome.connError "Failed to connect to u" rfl,
   ((C10_error_classification newPeerConnection
      ⟨JsonVal.jstr "v=0", JsonVal.jstr "offer"⟩ "u" false).2.2.1
      [] (by decide)).1,
   ((C10_error_classification newPeerConnection
      ⟨JsonVal.jstr "v=0", JsonVal.jstr "offer"⟩ "u" false).2.2.2.1
      [("sdp", JsonVal.jstr "a")] (JsonVal.jstr "a") (by decide) (by decide)).1,
   ((C10_error_classification newPeerConnection
      ⟨JsonVal.jstr "v=0", JsonVal.jstr "offer"⟩ "u" false).2.2.2.2
      [("sdp", JsonVal.jstr "a"), ("type", JsonVal.jstr "answer")]
      (JsonVal.jstr "a") (JsonVal.jstr "answer")
      (by decide) (by decide) (by decide)).2.2⟩

end JwoVideoClient
